import Mathlib

/-
Shallow embedding of the hardware-controller core `src/hwctrl/hwctrl.py`
(BhRemoteBuilder): the command data model, the CmdProcessor handlers, the
move generation counter, the cancellable wait handles, the in-flight
registry and the shutdown path.

Modelling conventions:
* Python floats are modelled as rationals (`ℚ`); the numeric claims checked
  here do not depend on binary floating-point rounding.
* The smbus2 bus and the gpiozero motor/LED devices are external
  collaborators; bus transactions are an oracle of pure functions returning
  `Option` (`none` models a raised transport exception), motor-driver calls
  are recorded in an action log inside the motor state, and the per-call
  hardware failure modes of the move/stop GPIO calls are oracle booleans.
* `threading.Event` objects are `Option Bool` slots (`some b` = an installed
  event whose signalled flag is `b`).
* The in-flight registry (a Python `set` holding distinct command objects,
  hence effectively a multiset of identities) is a `List`.
* Locks are booleans recording acquire/release; blocking itself is a
  temporal matter outside this sequential embedding, but every handler is
  shown to leave each lock released.
-/

/-- A hardware-control command (class `HwCtrlCmd`): sequence number, opcode,
parameter list. -/
structure HwCtrlCmd where
  cmd_no : String
  opcode : String
  params : List String
deriving DecidableEq, Repr

/-- A hardware-control response (class `HwCtrlResp`). -/
structure HwCtrlResp where
  cmd_no : String
  opcode : String
  success : Bool
  data : List String
deriving DecidableEq, Repr

/-- Opcode.MOVE (StrEnum value). -/
def Opcode.MOVE : String := "move"

/-- Opcode.MEASURE_DISTANCE (StrEnum value). -/
def Opcode.MEASURE_DISTANCE : String := "measure-distance"

/-- Opcode.DETECT_COLOR (StrEnum value). -/
def Opcode.DETECT_COLOR : String := "detect-color"

/-- Opcode.LIGHT_EYE (StrEnum value). -/
def Opcode.LIGHT_EYE : String := "light-eye"

/-- The move operations of `RaspiCarMoveOp`. -/
inductive RaspiCarMoveOp where
  | FORWARD
  | BACKWARD
  | CLOCKWISE
  | COUNTERCLOCKWISE
  | STOP
deriving DecidableEq, Repr

/-- Constructing `RaspiCarMoveOp` from its string value; `none` models the
ValueError raised on an unknown value. -/
def RaspiCarMoveOp.ofString : String → Option RaspiCarMoveOp
  | "fwd" => some RaspiCarMoveOp.FORWARD
  | "bwd" => some RaspiCarMoveOp.BACKWARD
  | "cw" => some RaspiCarMoveOp.CLOCKWISE
  | "ccw" => some RaspiCarMoveOp.COUNTERCLOCKWISE
  | "stop" => some RaspiCarMoveOp.STOP
  | _ => none

/-- RaspiCarEye.LEFT (StrEnum value). -/
def RaspiCarEye.LEFT : String := "left"

/-- RaspiCarEye.RIGHT (StrEnum value). -/
def RaspiCarEye.RIGHT : String := "right"

/-- RaspiCarEye.BOTH (StrEnum value). -/
def RaspiCarEye.BOTH : String := "both"

/-- One invocation of the MoveCtrl motor driver (an observable actuation). -/
inductive MotorAct where
  | forward (speed : ℚ)
  | backward (speed : ℚ)
  | clockwise (speed : ℚ)
  | counter_clockwise (speed : ℚ)
  | stop
deriving DecidableEq, Repr

/-- State of the MoveCtrl outputs (PWM duty cycle and the two phase pins),
together with the log of driver invocations, newest last. -/
structure MotorState where
  pwm : ℚ
  lhs_phase : Bool
  rhs_phase : Bool
  log : List MotorAct
deriving DecidableEq, Repr

/-- MoveCtrl.forward: clamp the speed, phases off/off, set the duty cycle. -/
def MoveCtrl.forward (m : MotorState) (speed : ℚ) : MotorState :=
  let speed := min 1 (max speed 0)
  { m with lhs_phase := false, rhs_phase := false, pwm := speed,
           log := m.log ++ [MotorAct.forward speed] }

/-- MoveCtrl.backward: clamp the speed, phases on/on, set the duty cycle. -/
def MoveCtrl.backward (m : MotorState) (speed : ℚ) : MotorState :=
  let speed := min 1 (max speed 0)
  { m with lhs_phase := true, rhs_phase := true, pwm := speed,
           log := m.log ++ [MotorAct.backward speed] }

/-- MoveCtrl.clockwise: clamp the speed, phases off/on, set the duty cycle. -/
def MoveCtrl.clockwise (m : MotorState) (speed : ℚ) : MotorState :=
  let speed := min 1 (max speed 0)
  { m with lhs_phase := false, rhs_phase := true, pwm := speed,
           log := m.log ++ [MotorAct.clockwise speed] }

/-- MoveCtrl.counter_clockwise: clamp the speed, phases on/off, set the duty
cycle. -/
def MoveCtrl.counter_clockwise (m : MotorState) (speed : ℚ) : MotorState :=
  let speed := min 1 (max speed 0)
  { m with lhs_phase := true, rhs_phase := false, pwm := speed,
           log := m.log ++ [MotorAct.counter_clockwise speed] }

/-- MoveCtrl.stop: duty cycle to zero. -/
def MoveCtrl.stop (m : MotorState) : MotorState :=
  { m with pwm := 0, log := m.log ++ [MotorAct.stop] }

/-- MoveCtrl.move: dispatch one motion intent to the per-operation method. -/
def MoveCtrl.move (m : MotorState) (move_op : RaspiCarMoveOp) (speed : ℚ) :
    MotorState :=
  match move_op with
  | RaspiCarMoveOp.FORWARD => MoveCtrl.forward m speed
  | RaspiCarMoveOp.BACKWARD => MoveCtrl.backward m speed
  | RaspiCarMoveOp.CLOCKWISE => MoveCtrl.clockwise m speed
  | RaspiCarMoveOp.COUNTERCLOCKWISE => MoveCtrl.counter_clockwise m speed
  | RaspiCarMoveOp.STOP => MoveCtrl.stop m

/-- One eye's three LED outputs (true = lit). -/
structure EyeLeds where
  red : Bool
  green : Bool
  blue : Bool
deriving DecidableEq, Repr

/-- Mutable state of a `CmdProcessor` instance (plus the lamp and motor
outputs it drives). -/
structure CPState where
  num_times_moved : ℕ
  move_event : Option Bool
  get_color_event : Option Bool
  activeCmds : List HwCtrlCmd
  motor : MotorState
  right_eye : EyeLeds
  left_eye : EyeLeds
  i2c_lock : Bool
  color_sensor_lock : Bool
  move_lock : Bool
deriving DecidableEq, Repr

/-- The smbus2 bus as an oracle of pure transactions; `none` models a raised
transport exception. -/
structure I2CBus where
  write_byte : ℕ → ℕ → Option Unit
  write_byte_data : ℕ → ℕ → ℕ → Option Unit
  read_i2c_block_data : ℕ → ℕ → ℕ → Option (List ℕ)

/-- Hardware oracle: the bus plus the failure modes of the GPIO calls made
by the move handlers (true = the call succeeds). -/
structure HwOracle where
  bus : I2CBus
  moveHwOk : Bool
  stopHwOk : Bool

/-- CmdProcessor.__COLOR_SENSOR_I2C_ADDR. -/
def COLOR_SENSOR_I2C_ADDR : ℕ := 0x2A

/-- CmdProcessor.__DISTANCE_SENSOR_I2C_ADDR. -/
def DISTANCE_SENSOR_I2C_ADDR : ℕ := 0x57

/-- One attempted bus transaction or cancellable wait, as recorded in the
color-sensor handler's action trace. -/
inductive BusAction where
  | write_byte_data (addr reg val : ℕ)
  | write_byte (addr val : ℕ)
  | read_block (addr reg len : ℕ)
  | wait (timeout : ℚ)
deriving DecidableEq, Repr

/-- Accumulate decimal digits into a natural number; `none` on a non-digit. -/
def decDigitsAux : List Char → ℕ → Option ℕ
  | [], acc => some acc
  | c :: cs, acc =>
    if c.isDigit then decDigitsAux cs (acc * 10 + (c.toNat - 48))
    else none

/-- A nonempty all-digit character list as a natural number. -/
def decNat? (cs : List Char) : Option ℕ :=
  if cs.isEmpty then none else decDigitsAux cs 0

/-- Model of Python `int()` on plain decimal literals: optional minus sign
followed by digits; `none` models the ValueError on anything else. -/
def pyInt? (s : String) : Option ℤ :=
  match s.data with
  | '-' :: cs => (decNat? cs).map (fun n => -(n : ℤ))
  | cs => (decNat? cs).map (fun n => (n : ℤ))

/-- Split a character list at its first dot: (before, after, dot found). -/
def breakDot : List Char → List Char × List Char × Bool
  | [] => ([], [], false)
  | c :: cs =>
    if c = '.' then ([], cs, true)
    else
      let r := breakDot cs
      (c :: r.1, r.2.1, r.2.2)

/-- Model of Python `float()` restricted to plain decimal literals: optional
minus sign, an integer part and an optional fractional part; floats are
rationals in this embedding. -/
def pyFloat? (s : String) : Option ℚ :=
  let core := fun (cs : List Char) =>
    let b := breakDot cs
    if b.2.2 then
      if '.' ∈ b.2.1 then none
      else
        match decNat? b.1, decNat? b.2.1 with
        | some n, some m => some ((n : ℚ) + (m : ℚ) / ((10 : ℚ) ^ b.2.1.length))
        | _, _ => none
    else (decNat? cs).map (fun n => (n : ℚ))
  match s.data with
  | '-' :: cs => (core cs).map (fun q => -q)
  | cs => core cs

/-- CmdProcessor.__cancel_move: signal the active move event if one exists. -/
def cancel_move (st : CPState) : CPState :=
  match st.move_event with
  | some _ => { st with move_event := some true }
  | none => st

/-- CmdProcessor.__cancel_color_detection: signal the active color event if
one exists. -/
def cancel_color_detection (st : CPState) : CPState :=
  match st.get_color_event with
  | some _ => { st with get_color_event := some true }
  | none => st

/-- CmdProcessor.__stop_raspicar: under the move lock, increment the
generation counter, stop the motor, signal the active move event.  `hwOk`
models whether the MoveCtrl.stop hardware call raises (the counter increment
precedes the call, so it persists either way). -/
def stop_raspicar (st : CPState) (hwOk : Bool) : CPState × Bool :=
  let st1 := { st with move_lock := true,
                       num_times_moved := st.num_times_moved + 1 }
  if hwOk then
    let st2 := { st1 with motor := MoveCtrl.stop st1.motor }
    let st3 := cancel_move st2
    ({ st3 with move_lock := false }, true)
  else
    ({ st1 with move_lock := false }, false)

/-- First half of CmdProcessor.__move_raspicar, before `event.wait`: under
the move lock, increment the generation counter, capture its value, drive
the motor, signal the previous move event and install a fresh unsignalled
one.  Returns the new state, the captured counter value, and whether the
hardware call succeeded. -/
def move_raspicar_phase1 (st : CPState) (move_op : RaspiCarMoveOp)
    (speed : ℚ) (hwOk : Bool) : CPState × ℕ × Bool :=
  let st1 := { st with move_lock := true,
                       num_times_moved := st.num_times_moved + 1 }
  let captured := st1.num_times_moved
  if hwOk then
    let st2 := { st1 with motor := MoveCtrl.move st1.motor move_op speed }
    let st3 := cancel_move st2
    let st4 := { st3 with move_event := some false }
    ({ st4 with move_lock := false }, captured, true)
  else
    ({ st1 with move_lock := false }, captured, false)

/-- Second half of CmdProcessor.__move_raspicar, after `event.wait`: under
the move lock, compare the captured counter value with the current one; only
when they are equal stop the motor.  `hwOk` models whether the MoveCtrl.stop
call raises. -/
def move_raspicar_phase2 (st : CPState) (num_times_moved : ℕ) (hwOk : Bool) :
    CPState × Bool :=
  let st1 := { st with move_lock := true }
  if num_times_moved ≠ st1.num_times_moved then
    ({ st1 with move_lock := false }, true)
  else if hwOk then
    ({ st1 with motor := MoveCtrl.stop st1.motor, move_lock := false }, true)
  else
    ({ st1 with move_lock := false }, false)

/-- CmdProcessor.__move_raspicar run without interference from other
commands: phase 1, the (state-neutral) timed wait, then phase 2 on the same
state. -/
def move_raspicar (o : HwOracle) (st : CPState) (move_op : RaspiCarMoveOp)
    (speed : ℚ) (time : ℚ) : CPState × Bool :=
  match move_raspicar_phase1 st move_op speed o.moveHwOk with
  | (st1, captured, true) => move_raspicar_phase2 st1 captured o.stopHwOk
  | (st1, _, false) => (st1, false)

/-- CmdProcessor.__move: parse the operation name and parameters, dispatch
to stop or to the timed move; any parse exception yields a failure
response. -/
def move_cmd (o : HwOracle) (st : CPState) (cmd : HwCtrlCmd) :
    CPState × HwCtrlResp :=
  match (cmd.params[0]?).bind RaspiCarMoveOp.ofString with
  | none => (st, ⟨cmd.cmd_no, cmd.opcode, false, []⟩)
  | some move_op =>
    if move_op = RaspiCarMoveOp.STOP then
      let r := stop_raspicar st o.stopHwOk
      (r.1, ⟨cmd.cmd_no, cmd.opcode, r.2, []⟩)
    else
      match (cmd.params[1]?).bind pyFloat?, (cmd.params[2]?).bind pyFloat? with
      | some speed, some time =>
        let r := move_raspicar o st move_op speed time
        (r.1, ⟨cmd.cmd_no, cmd.opcode, r.2, []⟩)
      | _, _ => (st, ⟨cmd.cmd_no, cmd.opcode, false, []⟩)

/-- CmdProcessor.__measure_distance: under the bus lock, start a
measurement, read 3 bytes after the settle delay, decode a big-endian 24-bit
micrometer distance into one decimal string. -/
def measure_distance (o : HwOracle) (st : CPState) (cmd : HwCtrlCmd) :
    CPState × HwCtrlResp :=
  let st1 := { st with i2c_lock := true }
  match o.bus.write_byte DISTANCE_SENSOR_I2C_ADDR 0x1 with
  | none => ({ st1 with i2c_lock := false }, ⟨cmd.cmd_no, cmd.opcode, false, []⟩)
  | some _ =>
    match o.bus.read_i2c_block_data DISTANCE_SENSOR_I2C_ADDR 0 3 with
    | none => ({ st1 with i2c_lock := false }, ⟨cmd.cmd_no, cmd.opcode, false, []⟩)
    | some data =>
      match data[0]?, data[1]?, data[2]? with
      | some d0, some d1, some d2 =>
        let distance := ((d0 <<< 16) ||| (d1 <<< 8)) ||| d2
        ({ st1 with i2c_lock := false },
          ⟨cmd.cmd_no, cmd.opcode, true, [toString distance]⟩)
      | _, _, _ =>
        ({ st1 with i2c_lock := false }, ⟨cmd.cmd_no, cmd.opcode, false, []⟩)

/-- The integration-time register value computed by
CmdProcessor.__get_color_sensor_val: the exposure time is clamped to
`[0, 11]` seconds, converted to microseconds, divided by the 175 µs exposure
unit and truncated (`int()`; the operand is nonnegative, so truncation is
the floor). -/
def integ_of (exp_time : ℚ) : ℕ :=
  (⌊max 0 (min exp_time 11) * 1000000 / 175⌋).toNat

/-- CmdProcessor.__get_color_sensor_val (sensor S11059-02DT): write the four
configuration bytes under the bus lock, install the color event, wait out of
lock for `(4 * exp_time) * 1.05` seconds, then read 8 bytes under the bus
lock and decode three big-endian 16-bit values.  Returns the new state, the
trace of attempted bus transactions and the wait, and the outcome: `some []`
models a caught transport exception, `none` an uncaught IndexError from the
decode. -/
def get_color_sensor_val (o : HwOracle) (st : CPState) (exp_time : ℚ) :
    CPState × List BusAction × Option (List ℕ) :=
  let max_exp_time : ℚ := 11
  let exp_time_us : ℚ := max 0 (min exp_time max_exp_time) * 1000000
  let exp_unit_time : ℚ := 175
  let integ_val : ℕ := (⌊exp_time_us / exp_unit_time⌋).toNat
  let st1 := { st with i2c_lock := true }
  let a1 := BusAction.write_byte_data COLOR_SENSOR_I2C_ADDR 0 0x8C
  let a2 := BusAction.write_byte_data COLOR_SENSOR_I2C_ADDR 1 (integ_val >>> 8)
  let a3 := BusAction.write_byte_data COLOR_SENSOR_I2C_ADDR 2 (integ_val &&& 0xFF)
  let a4 := BusAction.write_byte_data COLOR_SENSOR_I2C_ADDR 0 0x0C
  match o.bus.write_byte_data COLOR_SENSOR_I2C_ADDR 0 0x8C with
  | none => ({ st1 with i2c_lock := false }, [a1], some [])
  | some _ =>
  match o.bus.write_byte_data COLOR_SENSOR_I2C_ADDR 1 (integ_val >>> 8) with
  | none => ({ st1 with i2c_lock := false }, [a1, a2], some [])
  | some _ =>
  match o.bus.write_byte_data COLOR_SENSOR_I2C_ADDR 2 (integ_val &&& 0xFF) with
  | none => ({ st1 with i2c_lock := false }, [a1, a2, a3], some [])
  | some _ =>
  match o.bus.write_byte_data COLOR_SENSOR_I2C_ADDR 0 0x0C with
  | none => ({ st1 with i2c_lock := false }, [a1, a2, a3, a4], some [])
  | some _ =>
  let st2 := { st1 with get_color_event := some false, i2c_lock := false }
  let aw := BusAction.wait ((4 * exp_time) * (105 / 100))
  let st3 := { st2 with i2c_lock := true }
  let ar := BusAction.read_block COLOR_SENSOR_I2C_ADDR 3 8
  match o.bus.read_i2c_block_data COLOR_SENSOR_I2C_ADDR 3 8 with
  | none => ({ st3 with i2c_lock := false }, [a1, a2, a3, a4, aw, ar], some [])
  | some color_vals =>
    let st4 := { st3 with i2c_lock := false }
    match color_vals[0]?, color_vals[1]?, color_vals[2]?,
          color_vals[3]?, color_vals[4]?, color_vals[5]? with
    | some c0, some c1, some c2, some c3, some c4, some c5 =>
      (st4, [a1, a2, a3, a4, aw, ar],
        some [(c0 <<< 8) ||| c1, (c2 <<< 8) ||| c3, (c4 <<< 8) ||| c5])
    | _, _, _, _, _, _ => (st4, [a1, a2, a3, a4, aw, ar], none)

/-- CmdProcessor.__detect_color: under the color-sequence lock, parse the
exposure parameter, run the sensor sequence, turn the values into decimal
strings; any exception yields a failure response, and the lock is released
on every path. -/
def detect_color (o : HwOracle) (st : CPState) (cmd : HwCtrlCmd) :
    CPState × HwCtrlResp :=
  let st1 := { st with color_sensor_lock := true }
  match (cmd.params[0]?).bind pyFloat? with
  | none =>
    ({ st1 with color_sensor_lock := false }, ⟨cmd.cmd_no, cmd.opcode, false, []⟩)
  | some exp_time =>
    match get_color_sensor_val o st1 exp_time with
    | (st2, _, some colors) =>
      if colors.isEmpty then
        ({ st2 with color_sensor_lock := false },
          ⟨cmd.cmd_no, cmd.opcode, false, []⟩)
      else
        ({ st2 with color_sensor_lock := false },
          ⟨cmd.cmd_no, cmd.opcode, true, colors.map toString⟩)
    | (st2, _, none) =>
      ({ st2 with color_sensor_lock := false },
        ⟨cmd.cmd_no, cmd.opcode, false, []⟩)

/-- CmdProcessor.__light_eye: parse the eye selector and three integer flags
(`bool(int(s))` is modelled as `s` parsing to a nonzero integer), then set
the selected lamp group(s); any parse exception yields a failure response
before any LED is touched. -/
def light_eye (st : CPState) (cmd : HwCtrlCmd) : CPState × HwCtrlResp :=
  match cmd.params[0]?, (cmd.params[1]?).bind pyInt?,
        (cmd.params[2]?).bind pyInt?, (cmd.params[3]?).bind pyInt? with
  | some eye, some r, some g, some b =>
    let red := r != 0
    let green := g != 0
    let blue := b != 0
    let st1 :=
      if eye = RaspiCarEye.LEFT ∨ eye = RaspiCarEye.BOTH then
        { st with left_eye := ⟨red, green, blue⟩ }
      else st
    let st2 :=
      if eye = RaspiCarEye.RIGHT ∨ eye = RaspiCarEye.BOTH then
        { st1 with right_eye := ⟨red, green, blue⟩ }
      else st1
    (st2, ⟨cmd.cmd_no, cmd.opcode, true, []⟩)
  | _, _, _, _ => (st, ⟨cmd.cmd_no, cmd.opcode, false, []⟩)

/-- CmdProcessor.process: register the command in the in-flight registry,
dispatch on the opcode, unregister on every exit path (the `finally`
block), and answer an unrecognized opcode with a failure response. -/
def process (o : HwOracle) (st : CPState) (cmd : HwCtrlCmd) :
    CPState × HwCtrlResp :=
  let st0 := { st with activeCmds := cmd :: st.activeCmds }
  let step : CPState × HwCtrlResp :=
    if cmd.opcode = Opcode.DETECT_COLOR then detect_color o st0 cmd
    else if cmd.opcode = Opcode.MOVE then move_cmd o st0 cmd
    else if cmd.opcode = Opcode.MEASURE_DISTANCE then measure_distance o st0 cmd
    else if cmd.opcode = Opcode.LIGHT_EYE then light_eye st0 cmd
    else (st0, ⟨cmd.cmd_no, cmd.opcode, false, []⟩)
  ({ step.1 with activeCmds := step.1.activeCmds.erase cmd }, step.2)

/-- Identity of one of the six eye LEDs. -/
inductive LedId where
  | right_red
  | right_green
  | right_blue
  | left_red
  | left_green
  | left_blue
deriving DecidableEq, Repr

/-- Switch one LED off (`led.off()`). -/
def led_off (st : CPState) : LedId → CPState
  | LedId.right_red => { st with right_eye := { st.right_eye with red := false } }
  | LedId.right_green => { st with right_eye := { st.right_eye with green := false } }
  | LedId.right_blue => { st with right_eye := { st.right_eye with blue := false } }
  | LedId.left_red => { st with left_eye := { st.left_eye with red := false } }
  | LedId.left_green => { st with left_eye := { st.left_eye with green := false } }
  | LedId.left_blue => { st with left_eye := { st.left_eye with blue := false } }

/-- The LED list iterated at the end of CmdProcessor.close.  The source
builds `list(self.__right_eye.values()) + list(self.__right_eye.values())`:
the right-eye LEDs twice in dict insertion order (red, green, blue), the
left-eye LEDs never. -/
def close_led_list : List LedId :=
  [LedId.right_red, LedId.right_green, LedId.right_blue] ++
  [LedId.right_red, LedId.right_green, LedId.right_blue]

/-- The bounded drain loop of CmdProcessor.close: while the in-flight
registry is nonempty and fewer than 15 iterations have run, signal the move
and color events and sleep 0.1 s.  In this sequential embedding no worker
runs concurrently, so the registry contents never change inside the loop. -/
def close_drain : ℕ → CPState → CPState
  | 0, st => st
  | k + 1, st =>
    if st.activeCmds.isEmpty then st
    else close_drain k (cancel_color_detection (cancel_move st))

/-- CmdProcessor.close: drain the in-flight registry (at most 15 polls),
switch off every LED named by the (duplicated right-eye) list, close the
bus handle. -/
def CmdProcessor_close (st : CPState) : CPState :=
  close_led_list.foldl led_off (close_drain 15 st)

/-- One interfering command acting on the move state while a move wait is in
progress: the pre-wait half of a newer move, or a stop.  Each increments the
generation counter under the move lock. -/
inductive Interf : CPState → CPState → Prop
  | move (st : CPState) (op : RaspiCarMoveOp) (speed : ℚ) (hwOk : Bool) :
      Interf st (move_raspicar_phase1 st op speed hwOk).1
  | stop (st : CPState) (hwOk : Bool) :
      Interf st (stop_raspicar st hwOk).1

/-- The freshly constructed processor state: counter zero, no events, empty
registry, motor and lamps off, locks free. -/
def initState : CPState :=
  { num_times_moved := 0
    move_event := none
    get_color_event := none
    activeCmds := []
    motor := { pwm := 0, lhs_phase := false, rhs_phase := false, log := [] }
    right_eye := ⟨false, false, false⟩
    left_eye := ⟨false, false, false⟩
    i2c_lock := false
    color_sensor_lock := false
    move_lock := false }

/-- A bus on which every transaction succeeds: distance reads return
`[0x00, 0x01, 0x00]`, color reads return `[0, 1, 0, 2, 0, 3, 0, 0]`. -/
def goodBus : I2CBus :=
  { write_byte := fun _ _ => some ()
    write_byte_data := fun _ _ _ => some ()
    read_i2c_block_data := fun addr _ _ =>
      if addr = DISTANCE_SENSOR_I2C_ADDR then some [0, 1, 0]
      else some [0, 1, 0, 2, 0, 3, 0, 0] }

/-- Oracle with a fully functional bus and GPIO. -/
def oGood : HwOracle := { bus := goodBus, moveHwOk := true, stopHwOk := true }

/-- A bus on which every transaction raises. -/
def deadBus : I2CBus :=
  { write_byte := fun _ _ => none
    write_byte_data := fun _ _ _ => none
    read_i2c_block_data := fun _ _ _ => none }

/-- Oracle on which every bus transaction and GPIO call fails. -/
def oDead : HwOracle := { bus := deadBus, moveHwOk := false, stopHwOk := false }

/-- A measure-distance command. -/
def cmdMeasure : HwCtrlCmd := ⟨"7", "measure-distance", []⟩

/-- A detect-color command with exposure parameter 0. -/
def cmdDetect : HwCtrlCmd := ⟨"9", "detect-color", ["0"]⟩

/-- A light-eye command whose eye selector is not left, right or both. -/
def cmdLightCenter : HwCtrlCmd := ⟨"4", "light-eye", ["center", "1", "0", "1"]⟩

/-- A command with an opcode outside the dispatch table. -/
def cmdBogus : HwCtrlCmd := ⟨"1", "bogus", []⟩

/-- A processor state in which all six eye LEDs are lit and the in-flight
registry is empty, as at a shutdown that has drained. -/
def closeTestState : CPState :=
  { initState with
    left_eye := ⟨true, true, true⟩
    right_eye := ⟨true, true, true⟩ }

theorem shiftLeft_lor_eq_add (a b n : ℕ) (hb : b < 2 ^ n) :
    (a <<< n) ||| b = a * 2 ^ n + b := by
  rw [Nat.shiftLeft_eq, Nat.mul_comm a, ← Nat.mul_add_lt_is_or hb, Nat.mul_comm]

theorem decode16 (a b : ℕ) (hb : b < 256) : (a <<< 8) ||| b = a * 256 + b := by
  have h := shiftLeft_lor_eq_add a b 8 (by omega)
  norm_num at h
  exact h

theorem decode24 (d0 d1 d2 : ℕ) (h1 : d1 < 256) (h2 : d2 < 256) :
    ((d0 <<< 16) ||| (d1 <<< 8)) ||| d2 = d0 * 65536 + d1 * 256 + d2 := by
  rw [Nat.lor_assoc, decode16 d1 d2 h2]
  have h := shiftLeft_lor_eq_add d0 (d1 * 256 + d2) 16 (by omega)
  norm_num at h
  rw [h]
  omega

theorem get_color_sensor_val_frame (o : HwOracle) (st : CPState) (e : ℚ) :
    (get_color_sensor_val o st e).1.activeCmds = st.activeCmds := by
  simp only [get_color_sensor_val]
  repeat' split
  all_goals rfl

theorem detect_color_frame (o : HwOracle) (st : CPState) (cmd : HwCtrlCmd) :
    (detect_color o st cmd).1.activeCmds = st.activeCmds ∧
    (detect_color o st cmd).2.cmd_no = cmd.cmd_no ∧
    (detect_color o st cmd).2.opcode = cmd.opcode ∧
    ((detect_color o st cmd).2.data = [] ∨ (detect_color o st cmd).2.success = true) := by
  simp only [detect_color]
  cases hp : (cmd.params[0]?).bind pyFloat? with
  | none => simp
  | some e =>
    have hg := get_color_sensor_val_frame o { st with color_sensor_lock := true } e
    rcases hgc : get_color_sensor_val o { st with color_sensor_lock := true } e with
      ⟨st2, acts, res⟩
    rw [hgc] at hg
    simp only at hg
    rcases res with _ | colors
    · simp [hgc, hg]
    · rcases colors with _ | ⟨c, cs⟩ <;> simp [hgc, hg]

theorem measure_distance_frame (o : HwOracle) (st : CPState) (cmd : HwCtrlCmd) :
    (measure_distance o st cmd).1.activeCmds = st.activeCmds ∧
    (measure_distance o st cmd).2.cmd_no = cmd.cmd_no ∧
    (measure_distance o st cmd).2.opcode = cmd.opcode ∧
    ((measure_distance o st cmd).2.data = [] ∨ (measure_distance o st cmd).2.success = true) := by
  simp only [measure_distance]
  repeat' split
  all_goals simp

theorem stop_raspicar_frame (st : CPState) (hwOk : Bool) :
    (stop_raspicar st hwOk).1.activeCmds = st.activeCmds := by
  simp only [stop_raspicar, cancel_move]
  repeat' split
  all_goals rfl

theorem move_raspicar_phase1_frame (st : CPState) (op : RaspiCarMoveOp)
    (speed : ℚ) (hwOk : Bool) :
    (move_raspicar_phase1 st op speed hwOk).1.activeCmds = st.activeCmds := by
  simp only [move_raspicar_phase1, cancel_move]
  repeat' split
  all_goals rfl

theorem move_raspicar_phase2_frame (st : CPState) (n : ℕ) (hwOk : Bool) :
    (move_raspicar_phase2 st n hwOk).1.activeCmds = st.activeCmds := by
  simp only [move_raspicar_phase2]
  repeat' split
  all_goals rfl

theorem move_raspicar_frame (o : HwOracle) (st : CPState) (op : RaspiCarMoveOp)
    (speed time : ℚ) :
    (move_raspicar o st op speed time).1.activeCmds = st.activeCmds := by
  simp only [move_raspicar]
  rcases hp : move_raspicar_phase1 st op speed o.moveHwOk with ⟨st1, cap, ok⟩
  have h1 := move_raspicar_phase1_frame st op speed o.moveHwOk
  rw [hp] at h1
  simp only at h1
  cases ok
  · simpa using h1
  · simpa [move_raspicar_phase2_frame] using h1

theorem move_cmd_frame (o : HwOracle) (st : CPState) (cmd : HwCtrlCmd) :
    (move_cmd o st cmd).1.activeCmds = st.activeCmds ∧
    (move_cmd o st cmd).2.cmd_no = cmd.cmd_no ∧
    (move_cmd o st cmd).2.opcode = cmd.opcode ∧
    (move_cmd o st cmd).2.data = [] := by
  simp only [move_cmd]
  repeat' split
  all_goals simp [stop_raspicar_frame, move_raspicar_frame]

theorem light_eye_frame (st : CPState) (cmd : HwCtrlCmd) :
    (light_eye st cmd).1.activeCmds = st.activeCmds ∧
    (light_eye st cmd).2.cmd_no = cmd.cmd_no ∧
    (light_eye st cmd).2.opcode = cmd.opcode ∧
    (light_eye st cmd).2.data = [] := by
  simp only [light_eye]
  repeat' split
  all_goals simp

theorem process_frame (o : HwOracle) (st : CPState) (cmd : HwCtrlCmd) :
    (process o st cmd).1.activeCmds = st.activeCmds ∧
    (process o st cmd).2.cmd_no = cmd.cmd_no ∧
    (process o st cmd).2.opcode = cmd.opcode ∧
    ((process o st cmd).2.data = [] ∨ (process o st cmd).2.success = true) := by
  have hdc := detect_color_frame o { st with activeCmds := cmd :: st.activeCmds } cmd
  have hmv := move_cmd_frame o { st with activeCmds := cmd :: st.activeCmds } cmd
  have hmd := measure_distance_frame o { st with activeCmds := cmd :: st.activeCmds } cmd
  have hle := light_eye_frame { st with activeCmds := cmd :: st.activeCmds } cmd
  refine ⟨?_, ?_, ?_, ?_⟩ <;>
    (simp only [process]
     repeat' split)
  all_goals simp_all [List.erase_cons_head]

theorem Interf_increments (st st' : CPState) (h : Interf st st') :
    st'.num_times_moved = st.num_times_moved + 1 := by
  cases h with
  | move op speed hwOk =>
    simp only [move_raspicar_phase1, cancel_move]
    repeat' split
    all_goals rfl
  | stop hwOk =>
    simp only [stop_raspicar, cancel_move]
    repeat' split
    all_goals rfl

theorem transGen_counter_lt (st st' : CPState)
    (h : Relation.TransGen Interf st st') :
    st.num_times_moved < st'.num_times_moved := by
  induction h with
  | single h1 =>
    rw [Interf_increments _ _ h1]
    omega
  | tail _ h1 ih =>
    have h2 := Interf_increments _ _ h1
    omega

theorem move_raspicar_phase1_counter (st : CPState) (op : RaspiCarMoveOp)
    (speed : ℚ) (hwOk : Bool) :
    (move_raspicar_phase1 st op speed hwOk).1.num_times_moved = st.num_times_moved + 1 ∧
    (move_raspicar_phase1 st op speed hwOk).2.1 = st.num_times_moved + 1 := by
  constructor <;>
    (simp only [move_raspicar_phase1, cancel_move]
     repeat' split) <;> rfl

/-- C1: the claim says CmdProcessor.close leaves every lamp output off, left
and right eye groups alike.  The code disagrees: the LED loop at the end of
close iterates `list(self.__right_eye.values()) + list(self.__right_eye.values())`
— the right-eye LEDs twice and the left-eye LEDs never — so a left-eye LED
that was lit stays lit after close returns.  Evaluated here at a drained
state with all six LEDs lit: the left eye is still fully lit afterwards
while the right eye is off.  (The claim is right about the intent; the
duplicated right-eye list is a copy-paste slip in the code.) -/
theorem C1_close_leaves_left_eye_lit :
    (CmdProcessor_close closeTestState).left_eye = ⟨true, true, true⟩ ∧
    (CmdProcessor_close closeTestState).right_eye = ⟨false, false, false⟩ := by
  decide

/-- C2: for every oracle, state and command, CmdProcessor.process returns
exactly one response (it is a total function of this embedding), the
in-flight registry is restored on every exit path, and every failure
response (parse error, transport error, unrecognized opcode) carries empty
data. -/
theorem C2_process_total_cleanup (o : HwOracle) (st : CPState) (cmd : HwCtrlCmd) :
    (process o st cmd).1.activeCmds = st.activeCmds ∧
    ((process o st cmd).2.success = false → (process o st cmd).2.data = []) := by
  obtain ⟨h1, _, _, h4⟩ := process_frame o st cmd
  refine ⟨h1, fun hf => ?_⟩
  rcases h4 with h | h
  · exact h
  · rw [h] at hf
    cases hf

/-- C2 witness: a command with an unrecognized opcode on the freshly built
state yields a failure response with empty data and an unchanged registry. -/
theorem C2_witness :
    (process oGood initState cmdBogus).1.activeCmds = initState.activeCmds ∧
    (process oGood initState cmdBogus).2.data = [] := by
  have h := C2_process_total_cleanup oGood initState cmdBogus
  exact ⟨h.1, h.2 (by decide)⟩

/-- C3: after the out-of-lock wait of a move command (operation other than
stop), the worker stops the motor iff the generation value captured after
its own increment still equals the current counter; every interleaved move
or stop command bumps the counter, and a stale wait neither touches the
motor (its action log is unchanged) nor reports failure. -/
theorem C3_stale_wait_suppressed (st0 st1 st2 : CPState) (op : RaspiCarMoveOp)
    (speed : ℚ) (captured : ℕ) (ok : Bool)
    (hop : op ≠ RaspiCarMoveOp.STOP)
    (hph1 : move_raspicar_phase1 st0 op speed true = (st1, captured, ok))
    (hreach : Relation.ReflTransGen Interf st1 st2) :
    ((move_raspicar_phase2 st2 captured true).1.motor.log =
        st2.motor.log ++ [MotorAct.stop] ↔ captured = st2.num_times_moved) ∧
    (∀ hwOk : Bool, captured ≠ st2.num_times_moved →
      (move_raspicar_phase2 st2 captured hwOk).1.motor = st2.motor ∧
      (move_raspicar_phase2 st2 captured hwOk).2 = true) ∧
    (Relation.TransGen Interf st1 st2 → captured ≠ st2.num_times_moved) := by
  have hcnt := move_raspicar_phase1_counter st0 op speed true
  rw [hph1] at hcnt
  simp only at hcnt
  refine ⟨?_, ?_, ?_⟩
  · by_cases hc : captured = st2.num_times_moved
    · simp [move_raspicar_phase2, hc, MoveCtrl.stop]
    · simp only [move_raspicar_phase2]
      simp [hc]
  · intro hwOk hc
    simp [move_raspicar_phase2, hc]
  · intro htg
    have hlt := transGen_counter_lt st1 st2 htg
    omega

/-- C3 witness: a forward move on the fresh state, with no interference
(zero interfering commands), instantiates the theorem: the wait is not
stale, so the terminal stop is performed. -/
theorem C3_witness :
    ((move_raspicar_phase2 (move_raspicar_phase1 initState RaspiCarMoveOp.FORWARD 1 true).1
        (move_raspicar_phase1 initState RaspiCarMoveOp.FORWARD 1 true).2.1 true).1.motor.log =
      (move_raspicar_phase1 initState RaspiCarMoveOp.FORWARD 1 true).1.motor.log ++
        [MotorAct.stop] ↔
      (move_raspicar_phase1 initState RaspiCarMoveOp.FORWARD 1 true).2.1 =
      (move_raspicar_phase1 initState RaspiCarMoveOp.FORWARD 1 true).1.num_times_moved) ∧
    (∀ hwOk : Bool,
      (move_raspicar_phase1 initState RaspiCarMoveOp.FORWARD 1 true).2.1 ≠
        (move_raspicar_phase1 initState RaspiCarMoveOp.FORWARD 1 true).1.num_times_moved →
      (move_raspicar_phase2 (move_raspicar_phase1 initState RaspiCarMoveOp.FORWARD 1 true).1
          (move_raspicar_phase1 initState RaspiCarMoveOp.FORWARD 1 true).2.1 hwOk).1.motor =
        (move_raspicar_phase1 initState RaspiCarMoveOp.FORWARD 1 true).1.motor ∧
      (move_raspicar_phase2 (move_raspicar_phase1 initState RaspiCarMoveOp.FORWARD 1 true).1
          (move_raspicar_phase1 initState RaspiCarMoveOp.FORWARD 1 true).2.1 hwOk).2 = true) ∧
    (Relation.TransGen Interf (move_raspicar_phase1 initState RaspiCarMoveOp.FORWARD 1 true).1
        (move_raspicar_phase1 initState RaspiCarMoveOp.FORWARD 1 true).1 →
      (move_raspicar_phase1 initState RaspiCarMoveOp.FORWARD 1 true).2.1 ≠
        (move_raspicar_phase1 initState RaspiCarMoveOp.FORWARD 1 true).1.num_times_moved) :=
  C3_stale_wait_suppressed initState
    (move_raspicar_phase1 initState RaspiCarMoveOp.FORWARD 1 true).1
    (move_raspicar_phase1 initState RaspiCarMoveOp.FORWARD 1 true).1
    RaspiCarMoveOp.FORWARD 1
    (move_raspicar_phase1 initState RaspiCarMoveOp.FORWARD 1 true).2.1
    (move_raspicar_phase1 initState RaspiCarMoveOp.FORWARD 1 true).2.2
    (by decide) rfl Relation.ReflTransGen.refl

/-- C4 counterexample: the claim's bound fails on the code.  With a
functioning bus and exposure parameter 22 (above 11), the out-of-lock wait
performed by CmdProcessor.__get_color_sensor_val has timeout
`(4 * 22) * 1.05 = 92.4` seconds, which is not bounded by
`(4 * 11) * 1.05 = 46.2` seconds: the wait uses the raw, unclamped
parameter. -/
theorem C4_counterexample :
    BusAction.wait ((4 * (22 : ℚ)) * (105 / 100)) ∈
      (get_color_sensor_val oGood initState 22).2.1 ∧
    11 < (22 : ℚ) ∧
    ¬ ((4 * (22 : ℚ)) * (105 / 100) ≤ (4 * 11) * (105 / 100)) := by
  refine ⟨?_, by norm_num, by norm_num⟩
  simp [get_color_sensor_val, oGood, goodBus, COLOR_SENSOR_I2C_ADDR,
        DISTANCE_SENSOR_I2C_ADDR]

/-- C4 (amended): when the configuration writes succeed, the handler's
action trace writes the integration-time registers computed from the
exposure parameter clamped to `[0, 11]` (high byte then low byte), but the
out-of-lock wait lasts `(4 * e) * 1.05` seconds with the raw, unclamped
parameter `e` — so for `e` above 11 the wait strictly exceeds
`4 × 11 × 1.05` seconds.  The clamped value determines the register value:
equal clamps give equal register values. -/
theorem C4_amended_clamp_and_wait (o : HwOracle) (st : CPState) (e : ℚ)
    (hw : ∀ r v, o.bus.write_byte_data COLOR_SENSOR_I2C_ADDR r v = some ()) :
    (get_color_sensor_val o st e).2.1 =
      [BusAction.write_byte_data COLOR_SENSOR_I2C_ADDR 0 0x8C,
       BusAction.write_byte_data COLOR_SENSOR_I2C_ADDR 1 (integ_of e >>> 8),
       BusAction.write_byte_data COLOR_SENSOR_I2C_ADDR 2 (integ_of e &&& 0xFF),
       BusAction.write_byte_data COLOR_SENSOR_I2C_ADDR 0 0x0C,
       BusAction.wait ((4 * e) * (105 / 100)),
       BusAction.read_block COLOR_SENSOR_I2C_ADDR 3 8] ∧
    (∀ e' : ℚ, max 0 (min e 11) = max 0 (min e' 11) → integ_of e = integ_of e') ∧
    (11 < e → (4 * 11) * (105 / 100) < (4 * e) * (105 / 100)) := by
  refine ⟨?_, ?_, ?_⟩
  · simp only [get_color_sensor_val, integ_of, hw]
    repeat' split
    all_goals rfl
  · intro e' h
    simp only [integ_of, h]
  · intro h
    linarith

/-- C4 witness: the amended statement instantiated at exposure parameter 22
on the functioning bus. -/
theorem C4_witness :
    (get_color_sensor_val oGood initState 22).2.1 =
      [BusAction.write_byte_data COLOR_SENSOR_I2C_ADDR 0 0x8C,
       BusAction.write_byte_data COLOR_SENSOR_I2C_ADDR 1 (integ_of 22 >>> 8),
       BusAction.write_byte_data COLOR_SENSOR_I2C_ADDR 2 (integ_of 22 &&& 0xFF),
       BusAction.write_byte_data COLOR_SENSOR_I2C_ADDR 0 0x0C,
       BusAction.wait ((4 * (22 : ℚ)) * (105 / 100)),
       BusAction.read_block COLOR_SENSOR_I2C_ADDR 3 8] ∧
    (∀ e' : ℚ, max 0 (min (22 : ℚ) 11) = max 0 (min e' 11) → integ_of 22 = integ_of e') ∧
    (11 < (22 : ℚ) → (4 * 11) * (105 / 100) < (4 * (22 : ℚ)) * (105 / 100)) :=
  C4_amended_clamp_and_wait oGood initState 22 (fun r v => rfl)

/-- C5: CmdProcessor.__stop_raspicar, when the hardware call succeeds,
increments the generation counter, stops the motor, signals the active move
event if one exists (an existing handle becomes signalled, no handle stays
absent), releases the move lock and reports success; when the hardware stop
call throws it reports failure. -/
theorem C5_stop_handler (st : CPState) :
    stop_raspicar st true =
      ({ st with num_times_moved := st.num_times_moved + 1,
                 motor := MoveCtrl.stop st.motor,
                 move_event := st.move_event.map (fun _ => true),
                 move_lock := false }, true) ∧
    (stop_raspicar st false).2 = false := by
  constructor
  · simp only [stop_raspicar, cancel_move]
    cases hme : st.move_event <;> simp [hme]
  · rfl

/-- C6: when the bus read of CmdProcessor.__measure_distance yields three
bytes, the response is success with exactly one decimal string equal to
`data[0]·65536 + data[1]·256 + data[2]`; on any transport failure the
response is failure; the bus lock is released on every path.  The witness
instantiates the payload `[0x00, 0x01, 0x00]`, decoding to "256". -/
theorem C6_measure_distance_decode (o : HwOracle) (st : CPState) (cmd : HwCtrlCmd)
    (d0 d1 d2 : ℕ)
    (hw : o.bus.write_byte DISTANCE_SENSOR_I2C_ADDR 0x1 = some ())
    (hr : o.bus.read_i2c_block_data DISTANCE_SENSOR_I2C_ADDR 0 3 = some [d0, d1, d2])
    (h0 : d0 < 256) (h1 : d1 < 256) (h2 : d2 < 256) :
    (measure_distance o st cmd).2 =
      ⟨cmd.cmd_no, cmd.opcode, true, [toString (d0 * 65536 + d1 * 256 + d2)]⟩ ∧
    (measure_distance o st cmd).1.i2c_lock = false ∧
    (∀ o' : HwOracle,
      o'.bus.write_byte DISTANCE_SENSOR_I2C_ADDR 0x1 = none ∨
      o'.bus.read_i2c_block_data DISTANCE_SENSOR_I2C_ADDR 0 3 = none →
      (measure_distance o' st cmd).2.success = false ∧
      (measure_distance o' st cmd).1.i2c_lock = false) := by
  refine ⟨?_, ?_, ?_⟩
  · simp only [measure_distance, hw, hr]
    simp [decode24 d0 d1 d2 h1 h2]
  · simp only [measure_distance, hw, hr]
    simp
  · rintro o' (h | h) <;>
      (simp only [measure_distance, h]
       repeat' split) <;> simp

/-- C6 witness: payload `[0x00, 0x01, 0x00]` decodes to the decimal string
of `0·65536 + 1·256 + 0 = 256`. -/
theorem C6_witness :
    (measure_distance oGood initState cmdMeasure).2 =
      ⟨cmdMeasure.cmd_no, cmdMeasure.opcode, true, [toString (0 * 65536 + 1 * 256 + 0)]⟩ :=
  (C6_measure_distance_decode oGood initState cmdMeasure 0 1 0 rfl rfl
    (by norm_num) (by norm_num) (by norm_num)).1

/-- C7: when the exposure parameter parses and the configuration writes and
the 8-byte read succeed, CmdProcessor.__detect_color reports success with
exactly three decimal strings decoded big-endian from byte pairs 0–1, 2–3
and 4–5 (red, green, blue), and each decoded value is at most 65535. -/
theorem C7_detect_color_decode (o : HwOracle) (st : CPState) (cmd : HwCtrlCmd) (e : ℚ)
    (c0 c1 c2 c3 c4 c5 c6 c7 : ℕ)
    (he : (cmd.params[0]?).bind pyFloat? = some e)
    (hw : ∀ r v, o.bus.write_byte_data COLOR_SENSOR_I2C_ADDR r v = some ())
    (hr : o.bus.read_i2c_block_data COLOR_SENSOR_I2C_ADDR 3 8 =
      some [c0, c1, c2, c3, c4, c5, c6, c7])
    (hb0 : c0 < 256) (hb1 : c1 < 256) (hb2 : c2 < 256) (hb3 : c3 < 256)
    (hb4 : c4 < 256) (hb5 : c5 < 256) (hb6 : c6 < 256) (hb7 : c7 < 256) :
    (detect_color o st cmd).2 =
      ⟨cmd.cmd_no, cmd.opcode, true,
        [toString (c0 * 256 + c1), toString (c2 * 256 + c3), toString (c4 * 256 + c5)]⟩ ∧
    c0 * 256 + c1 ≤ 65535 ∧ c2 * 256 + c3 ≤ 65535 ∧ c4 * 256 + c5 ≤ 65535 := by
  refine ⟨?_, by omega, by omega, by omega⟩
  simp only [detect_color, he]
  simp only [get_color_sensor_val, hw, hr]
  simp [decode16 c0 c1 hb1, decode16 c2 c3 hb3, decode16 c4 c5 hb5]

/-- C7 witness: `detect-color,0` on the functioning bus returning bytes
`[0,1,0,2,0,3,0,0]` reports the three decimal strings for 1, 2 and 3. -/
theorem C7_witness :
    (detect_color oGood initState cmdDetect).2 =
      ⟨cmdDetect.cmd_no, cmdDetect.opcode, true,
        [toString (0 * 256 + 1), toString (0 * 256 + 2), toString (0 * 256 + 3)]⟩ :=
  (C7_detect_color_decode oGood initState cmdDetect 0 0 1 0 2 0 3 0 0
    (by decide) (fun r v => rfl) rfl
    (by norm_num) (by norm_num) (by norm_num) (by norm_num)
    (by norm_num) (by norm_num) (by norm_num) (by norm_num)).1

/-- C8: for every oracle, state and command, the single response produced by
CmdProcessor.process echoes the input command's sequence number and opcode
verbatim, on success and failure alike. -/
theorem C8_response_echo (o : HwOracle) (st : CPState) (cmd : HwCtrlCmd) :
    (process o st cmd).2.cmd_no = cmd.cmd_no ∧
    (process o st cmd).2.opcode = cmd.opcode := by
  obtain ⟨_, h2, h3, _⟩ := process_frame o st cmd
  exact ⟨h2, h3⟩

/-- C9: a light-eye command whose three flag parameters parse as integers
but whose eye selector is none of left, right or both reports success and
leaves the whole state — in particular every LED — unchanged. -/
theorem C9_light_eye_unknown_selector (st : CPState) (cmd : HwCtrlCmd) (eye : String)
    (r g b : ℤ)
    (h0 : cmd.params[0]? = some eye)
    (h1 : (cmd.params[1]?).bind pyInt? = some r)
    (h2 : (cmd.params[2]?).bind pyInt? = some g)
    (h3 : (cmd.params[3]?).bind pyInt? = some b)
    (hL : eye ≠ RaspiCarEye.LEFT) (hR : eye ≠ RaspiCarEye.RIGHT)
    (hB : eye ≠ RaspiCarEye.BOTH) :
    light_eye st cmd = (st, ⟨cmd.cmd_no, cmd.opcode, true, []⟩) := by
  simp [light_eye, h0, h1, h2, h3, hL, hR, hB]

/-- C9 witness: `light-eye,center,1,0,1` succeeds and changes nothing. -/
theorem C9_witness :
    light_eye initState cmdLightCenter =
      (initState, ⟨cmdLightCenter.cmd_no, cmdLightCenter.opcode, true, []⟩) :=
  C9_light_eye_unknown_selector initState cmdLightCenter "center" 1 0 1
    (by decide) (by decide) (by decide) (by decide) (by decide) (by decide) (by decide)

/-- C10: a move wait that wakes preempted (its captured generation value no
longer equals the counter) still reports success, for any hardware failure
mode of the terminal stop call, exactly as an unpreempted move does. -/
theorem C10_preempted_move_reports_success (st : CPState) (captured : ℕ) (hwOk : Bool)
    (h : captured ≠ st.num_times_moved) :
    (move_raspicar_phase2 st captured hwOk).2 = true ∧
    (move_raspicar_phase2 st st.num_times_moved true).2 = true := by
  constructor
  · simp [move_raspicar_phase2, h]
  · simp [move_raspicar_phase2]

/-- C10 witness: a stale captured value (5, against counter 0) still reports
success, like the fresh one. -/
theorem C10_witness :
    (move_raspicar_phase2 initState 5 false).2 = true ∧
    (move_raspicar_phase2 initState initState.num_times_moved true).2 = true :=
  C10_preempted_move_reports_success initState 5 false (by decide)
